import Mathlib

/-!
# Time-Capsule protocol: verification of the capsule sealing / commitment / reveal core

Shallow embedding of the repository's core:
* `TimeCapsule` — the Solidity contract `contracts/contracts/TimeCapsule.sol`,
  modelled as explicit state passing over `ContractState`; reverts become
  `Except.error` carrying the contract's custom error; `block.timestamp` and
  `msg.sender`/`msg.value` are explicit parameters; `keccak256` is an abstract
  parameter (the EVM primitive is not part of the repository).
* `CryptoService` — `Frontend/src/lib/crypto.ts` (recovery-kit validation,
  base64 handling, AES-GCM wrappers).
* `RevealService` — `Frontend/src/lib/reveal.ts` (the reveal pipeline over the
  public revealed-capsule index), with the IPFS download and the content
  decryption passed in as oracles (they are network / Web Crypto effects).
* `IPFSService` — the gateway download chain with its local-cache branch,
  network fetches passed in as an oracle from URL to optional response body.
-/

namespace TimeCapsule

/-- `enum CapsuleType { RAW_TEXT, HASH_ONLY, ENCRYPTED }` from `TimeCapsule.sol`. -/
inductive CapsuleType
  | RAW_TEXT
  | HASH_ONLY
  | ENCRYPTED
deriving DecidableEq, Repr

/-- `enum CapsuleStatus { LOCKED, UNLOCKED, REVEALED }` from `TimeCapsule.sol`. -/
inductive CapsuleStatus
  | LOCKED
  | UNLOCKED
  | REVEALED
deriving DecidableEq, Repr

/-- The custom errors declared in `TimeCapsule.sol`. -/
inductive ContractError
  | InvalidUnlockTime
  | InsufficientFee
  | NotOwner
  | CapsuleNotFound
  | CapsuleStillLocked
  | CapsuleAlreadyRevealed
  | ContentTooLarge
  | HashMismatch
  | UnauthorizedAccess
deriving DecidableEq, Repr

/-- `struct CapsuleMeta` from `TimeCapsule.sol`.  Addresses are modelled as
natural numbers (the 160-bit address value); byte strings and hashes as `Nat`
through the abstract `keccak` parameter. -/
structure CapsuleMeta where
  owner : Nat
  createdAt : Nat
  unlockTime : Nat
  capsuleType : CapsuleType
  status : CapsuleStatus
  contentHash : Nat
  contentRef : String
  recipients : List String
  isPublic : Bool
deriving DecidableEq, Repr

/-- The default `CapsuleMeta` a Solidity mapping yields for an unset key. -/
def emptyCapsule : CapsuleMeta :=
  { owner := 0, createdAt := 0, unlockTime := 0, capsuleType := .RAW_TEXT,
    status := .LOCKED, contentHash := 0, contentRef := "", recipients := [],
    isPublic := false }

/-- Contract storage: `_capsuleCounter`, `_capsules`, `_userCapsules`,
`protocolFee`, `treasury`. -/
structure ContractState where
  capsuleCounter : Nat
  capsules : Nat → CapsuleMeta
  userCapsules : Nat → List Nat
  protocolFee : Nat
  treasury : Nat

/-- `MIN_LOCK_DURATION = 1 days`. -/
def MIN_LOCK_DURATION : Nat := 86400

/-- `MAX_LOCK_DURATION = 10 * 365 days`. -/
def MAX_LOCK_DURATION : Nat := 10 * 365 * 86400

/-- `MAX_CONTENT_SIZE = 32 * 1024`. -/
def MAX_CONTENT_SIZE : Nat := 32 * 1024

/-- Modifier `validCapsule`: reverts `CapsuleNotFound` when
`capsuleId == 0 || capsuleId > _capsuleCounter`; this is the guard that passes. -/
def validCapsule (s : ContractState) (capsuleId : Nat) : Bool :=
  !(capsuleId == 0 || decide (capsuleId > s.capsuleCounter))

/-- The byte encoding of a string (for `abi.encodePacked` on a `string`). -/
def stringBytes (s : String) : List Nat :=
  s.toList.map Char.toNat

/-- `_compareStrings`: equality via `keccak256(abi.encodePacked ·)` comparison. -/
def compareStrings (keccak : List Nat → Nat) (a b : String) : Bool :=
  keccak (stringBytes a) == keccak (stringBytes b)

/-- The lookup `alphabet[i]` into `"0123456789abcdef"` from
`_addressToString`, as the code point of the `i`-th lowercase hex digit. -/
def hexDigit (n : Nat) : Char :=
  if n < 10 then Char.ofNat (48 + n) else Char.ofNat (87 + n)

/-- `_addressToString`: `0x` followed by the 40 lowercase hex digits of the
20-byte address, most significant byte first. -/
def addressToString (addr : Nat) : String :=
  "0x" ++ String.mk (((List.range 20).map fun i =>
    let b := addr / 256 ^ (19 - i) % 256
    [hexDigit (b / 16), hexDigit (b % 16)]).flatten)

/-- `_canAccessCapsule`: owner, listed recipient (string comparison against the
hex rendering of the caller), or public capsule past its unlock time. -/
def canAccessCapsule (keccak : List Nat → Nat) (s : ContractState) (now : Nat)
    (capsuleId user : Nat) : Bool :=
  let capsule := s.capsules capsuleId
  if capsule.owner == user then
    true
  else if capsule.recipients.any
      (fun r => compareStrings keccak r (addressToString user)) then
    true
  else if capsule.isPublic && decide (capsule.unlockTime ≤ now) then
    true
  else
    false

/-- `createCapsule`.  `now` is `block.timestamp` (so also `currentTime` and the
new capsule's `createdAt`); the two `transfer` calls move ether only and do not
touch contract storage, so they have no footprint in this state model. -/
def createCapsule (s : ContractState) (sender msgValue now : Nat)
    (capsuleType : CapsuleType) (contentHash : Nat) (contentRef : String)
    (unlockTime : Nat) (recipients : List String) (isPublic : Bool) :
    Except ContractError (ContractState × Nat) :=
  if unlockTime ≤ now + MIN_LOCK_DURATION ∨ now + MAX_LOCK_DURATION < unlockTime then
    .error .InvalidUnlockTime
  else if msgValue < s.protocolFee then
    .error .InsufficientFee
  else
    .ok ({ s with
            capsuleCounter := s.capsuleCounter + 1,
            capsules := fun i =>
              if i = s.capsuleCounter + 1 then
                { owner := sender, createdAt := now, unlockTime := unlockTime,
                  capsuleType := capsuleType, status := .LOCKED,
                  contentHash := contentHash, contentRef := contentRef,
                  recipients := recipients, isPublic := isPublic }
              else s.capsules i,
            userCapsules := fun a =>
              if a = sender then s.userCapsules a ++ [s.capsuleCounter + 1]
              else s.userCapsules a },
          s.capsuleCounter + 1)

/-- `revealCapsule`.  Modifier order is `validCapsule` then `onlyUnlocked`;
the body then checks authorization, the already-revealed guard, and the hash
commitment before performing the state transition. -/
def revealCapsule (keccak : List Nat → Nat) (s : ContractState)
    (sender now capsuleId : Nat) (plaintextOrKey : List Nat)
    (finalContentRef : String) : Except ContractError ContractState :=
  if validCapsule s capsuleId then
    if now < (s.capsules capsuleId).unlockTime then
      .error .CapsuleStillLocked
    else if canAccessCapsule keccak s now capsuleId sender then
      if (s.capsules capsuleId).status = .REVEALED then
        .error .CapsuleAlreadyRevealed
      else if keccak plaintextOrKey ≠ (s.capsules capsuleId).contentHash then
        .error .HashMismatch
      else
        .ok { s with
                capsules := fun i =>
                  if i = capsuleId then
                    { s.capsules capsuleId with
                        status := .REVEALED,
                        contentRef :=
                          if (stringBytes finalContentRef).length > 0 then
                            finalContentRef
                          else (s.capsules capsuleId).contentRef }
                  else s.capsules i }
    else
      .error .UnauthorizedAccess
  else
    .error .CapsuleNotFound

/-- `unlockCapsule`: same modifiers, then authorization; the status write is
guarded by `status == LOCKED`, so a second call is a no-op, not an error. -/
def unlockCapsule (keccak : List Nat → Nat) (s : ContractState)
    (sender now capsuleId : Nat) : Except ContractError ContractState :=
  if validCapsule s capsuleId then
    if now < (s.capsules capsuleId).unlockTime then
      .error .CapsuleStillLocked
    else if canAccessCapsule keccak s now capsuleId sender then
      if (s.capsules capsuleId).status = .LOCKED then
        .ok { s with
                capsules := fun i =>
                  if i = capsuleId then
                    { s.capsules capsuleId with status := .UNLOCKED }
                  else s.capsules i }
      else
        .ok s
    else
      .error .UnauthorizedAccess
  else
    .error .CapsuleNotFound

/-- `getCapsule`. -/
def getCapsule (s : ContractState) (capsuleId : Nat) :
    Except ContractError CapsuleMeta :=
  if validCapsule s capsuleId then .ok (s.capsules capsuleId)
  else .error .CapsuleNotFound

/-- `setProtocolFee` (treasury-gated `require`). -/
def setProtocolFee (s : ContractState) (sender newFee : Nat) :
    Except String ContractState :=
  if sender = s.treasury then .ok { s with protocolFee := newFee }
  else .error "Only treasury can update fee"

/-- `setTreasury` (treasury-gated `require`). -/
def setTreasury (s : ContractState) (sender newTreasury : Nat) :
    Except String ContractState :=
  if sender = s.treasury then .ok { s with treasury := newTreasury }
  else .error "Only treasury can update address"

/-- Numeric rank of a status in the LOCKED → UNLOCKED → REVEALED order. -/
def statusRank : CapsuleStatus → Nat
  | .LOCKED => 0
  | .UNLOCKED => 1
  | .REVEALED => 2

end TimeCapsule

namespace CryptoService

/-- `c` is in the base64 alphabet `[A-Za-z0-9+/]`. -/
def isB64Char (c : Char) : Bool :=
  ('A' ≤ c && c ≤ 'Z') || ('a' ≤ c && c ≤ 'z') || ('0' ≤ c && c ≤ '9') ||
    c == '+' || c == '/'

/-- The regular expression used by `crypto.ts` on keys and IVs,
`/^[A-Za-z0-9+/]*={0,2}$/`: an alphabet body followed by at most two `=` pads. -/
def b64Regex (s : String) : Bool :=
  let l := s.toList
  let padLen := (l.reverse.takeWhile (· == '=')).length
  decide (padLen ≤ 2) && (l.take (l.length - padLen)).all isB64Char

/-- The 6-bit value of a base64 alphabet character. -/
def b64Val (c : Char) : Option Nat :=
  if 'A' ≤ c ∧ c ≤ 'Z' then some (c.toNat - 65)
  else if 'a' ≤ c ∧ c ≤ 'z' then some (c.toNat - 97 + 26)
  else if '0' ≤ c ∧ c ≤ '9' then some (c.toNat - 48 + 52)
  else if c = '+' then some 62
  else if c = '/' then some 63
  else none

/-- Bit-accumulator base64 body decoder: shifts six bits in per character,
emitting a byte whenever eight or more bits are buffered. -/
def decodeB64 : List Nat → Nat → Nat → List Nat
  | [], _, _ => []
  | v :: vs, acc, bits =>
    let acc' := acc * 64 + v
    let bits' := bits + 6
    if 8 ≤ bits' then
      acc' / 2 ^ (bits' - 8) :: decodeB64 vs (acc' % 2 ^ (bits' - 8)) (bits' - 8)
    else
      decodeB64 vs acc' bits'

/-- The browser's `atob` (WHATWG forgiving-base64 decode): strip whitespace,
strip up to two trailing pads when the length is a multiple of four, reject a
length congruent to 1 mod 4 or any character outside the alphabet, then decode;
a thrown `InvalidCharacterError` is `none`. -/
def atob (s : String) : Option (List Nat) :=
  let l := s.toList.filter fun c => !c.isWhitespace
  let l :=
    if l.length % 4 = 0 then
      match l.reverse with
      | '=' :: '=' :: rest => rest.reverse
      | '=' :: rest => rest.reverse
      | _ => l
    else l
  if l.length % 4 = 1 then none
  else
    match l.mapM b64Val with
    | none => none
    | some vals => some (decodeB64 vals 0 0)

/-- `trim().replace(/\s/g, '')`: every whitespace character removed. -/
def stripWs (s : String) : String :=
  String.mk (s.toList.filter fun c => !c.isWhitespace)

/-- `CryptoService.base64ToArrayBuffer`: clean, pad to a multiple of four with
`=`, check the base64 shape, then decode via `atob`; any failure throws, here
`none`. -/
def base64ToArrayBuffer (base64 : String) : Option (List Nat) :=
  let clean := stripWs base64
  let pad := (4 - clean.toList.length % 4) % 4
  let padded := String.mk (clean.toList ++ List.replicate pad '=')
  if b64Regex padded then atob padded else none

/-- `interface RecoveryKit` (the optional metadata block carries no behaviour
in the validation and reveal paths and is elided). -/
structure RecoveryKit where
  key : String
  iv : String
  capsuleId : String
deriving DecidableEq, Repr

/-- The `{ isValid, error? }` result of `validateRecoveryKit`. -/
structure ValidationResult where
  isValid : Bool
  error : Option String
deriving DecidableEq, Repr

/-- `/^\d+$/`: non-empty and all decimal digits (the numeric test/mock
sentinel shape used for capsule ids). -/
def isAllDigits (s : String) : Bool :=
  !s.toList.isEmpty && s.toList.all Char.isDigit

/-- `CryptoService.validateRecoveryKit`.  Field presence checks model the
JavaScript truthiness tests on the three string fields; note that an all-digits
`capsuleId` returns valid immediately, skipping every base64 and length check. -/
def validateRecoveryKit (kit : RecoveryKit) : ValidationResult :=
  if kit.key = "" then
    ⟨false, some "Recovery kit missing or invalid encryption key"⟩
  else if kit.iv = "" then
    ⟨false, some "Recovery kit missing or invalid initialization vector"⟩
  else if kit.capsuleId = "" then
    ⟨false, some "Recovery kit missing or invalid capsule ID"⟩
  else if isAllDigits kit.capsuleId then
    ⟨true, none⟩
  else
    if !b64Regex (stripWs kit.key) then
      ⟨false, some "Recovery kit key contains invalid base64 characters"⟩
    else if !b64Regex (stripWs kit.iv) then
      ⟨false, some "Recovery kit IV contains invalid base64 characters"⟩
    else if (atob (stripWs kit.key)).isNone || (atob (stripWs kit.iv)).isNone then
      ⟨false, some "Recovery kit contains invalid base64 encoded data"⟩
    else
      match base64ToArrayBuffer kit.key, base64ToArrayBuffer kit.iv with
      | some keyBuffer, some ivBuffer =>
        if keyBuffer.length ≠ 32 then
          ⟨false, some "Invalid encryption key length"⟩
        else if ivBuffer.length ≠ 12 then
          ⟨false, some "Invalid initialization vector length"⟩
        else
          ⟨true, none⟩
      | _, _ => ⟨false, some "Failed to validate key/IV buffer lengths"⟩

/-- Modelled from the spec: the AES-GCM primitive behind
`crypto.subtle.encrypt` / `crypto.subtle.decrypt` is a Web Crypto platform
builtin, not repository source.  Following §4.2 of the design ("encrypt the
serialized bundle with an authenticated symmetric cipher (AEAD) … decryption
with the wrong key/nonce must fail closed"), a sealed blob is idealized as the
sealed payload plus an authentication tag binding the exact key and nonce. -/
structure AEADSealed where
  payload : List Nat
  tagKey : List Nat
  tagIv : List Nat
deriving DecidableEq, Repr

/-- Modelled from the spec: ideal AEAD seal of `payload` under `key`/`iv`. -/
def aeadEncrypt (payload key iv : List Nat) : AEADSealed :=
  ⟨payload, key, iv⟩

/-- Modelled from the spec: ideal AEAD open — the integrity check accepts
exactly the sealing key and nonce, and otherwise throws the Web Crypto
`OperationError`, never releasing any plaintext. -/
def aeadDecrypt (sealed : AEADSealed) (key iv : List Nat) :
    Except String (List Nat) :=
  if sealed.tagKey = key ∧ sealed.tagIv = iv then .ok sealed.payload
  else .error "OperationError"

/-- `TextEncoder.encode`: code points of the string (an injective byte-level
rendering standing in for UTF-8). -/
def textEncode (s : String) : List Nat :=
  s.toList.map Char.toNat

/-- `TextDecoder.decode`, inverse of `textEncode`. -/
def textDecode (l : List Nat) : String :=
  String.mk (l.map Char.ofNat)

/-- The `{ encryptedContent, iv, key }` record returned by
`CryptoService.encrypt`. -/
structure EncryptedData where
  encryptedContent : AEADSealed
  iv : List Nat
  key : List Nat
deriving DecidableEq, Repr

/-- `CryptoService.encrypt`: encode the text and seal it; the freshly generated
key and IV of the source are passed explicitly (randomness is an effect). -/
def encrypt (data : String) (key iv : List Nat) : EncryptedData :=
  ⟨aeadEncrypt (textEncode data) key iv, iv, key⟩

/-- `CryptoService.decrypt`: import the raw key, open the blob, decode the
text; an AEAD authentication failure propagates as the thrown error. -/
def decrypt (encryptedData : AEADSealed) (key iv : List Nat) :
    Except String String :=
  (aeadDecrypt encryptedData key iv).map textDecode

end CryptoService

namespace RevealService

open CryptoService

/-- `p` is a leading fragment of `l` (character-by-character comparison, the
model of `String.startsWith` used for the `local_` and `mock_` sentinels). -/
def charsStartWith : List Char → List Char → Bool
  | [], _ => true
  | _ :: _, [] => false
  | p :: ps, c :: cs => p == c && charsStartWith ps cs

/-- `DecryptedCapsuleContent` from `crypto.ts` (the per-file entries carry no
behaviour in the reveal pipeline's control flow and are elided). -/
structure DecryptedCapsuleContent where
  title : String
  description : String
  creator : String
  createdAt : Nat
deriving DecidableEq, Repr

/-- The `revealMetadata` block of a `RevealedCapsule` (the threaded comment
list is elided; `likes` keeps the social counter). -/
structure RevealMetadata where
  revealedAt : Nat
  revealedBy : String
  isEarlyReveal : Bool
  originalUnlockTime : Nat
  revealMessage : Option String
  likes : Nat
deriving DecidableEq, Repr

/-- `RevealedCapsule` from `reveal.ts`. -/
structure RevealedCapsule where
  id : String
  originalData : DecryptedCapsuleContent
  revealMetadata : RevealMetadata
deriving DecidableEq, Repr

/-- `RevealResult` from `reveal.ts`. -/
structure RevealResult where
  success : Bool
  data : Option RevealedCapsule
  error : Option String
deriving DecidableEq, Repr

/-- `getRevealedCapsule`: find by id in the public revealed-capsule index. -/
def getRevealedCapsule (store : List RevealedCapsule) (capsuleId : String) :
    Option RevealedCapsule :=
  store.find? fun c => c.id == capsuleId

/-- `storeRevealedCapsule`: drop any existing entry with the same id, then
append the new record. -/
def storeRevealedCapsule (store : List RevealedCapsule)
    (capsule : RevealedCapsule) : List RevealedCapsule :=
  store.filter (fun c => !(c.id == capsule.id)) ++ [capsule]

/-- `isUserAuthorized`: case-insensitive match of the bundle's declared
creator against the caller address. -/
def isUserAuthorized (capsuleData : DecryptedCapsuleContent)
    (userAddress : String) : Bool :=
  capsuleData.creator.toLower == userAddress.toLower

/-- `RevealService.revealCapsule`.  Effects are passed as oracles:
`ipfsHashOf` is the `getCapsuleIPFSHash` lookup, `download` the IPFS service,
`decryptContent` the `cryptoService.decryptCapsuleContent` call (whose thrown
message the outer catch turns into a failure result).  `nowMs` is `Date.now()`;
the unlock time is in seconds, hence the `* 1000` in the early-reveal flag.
Returns the result together with the updated revealed-capsule index. -/
def revealCapsule (ipfsHashOf : String → Option String)
    (download : String → Except String String)
    (decryptContent : String → RecoveryKit → Except String DecryptedCapsuleContent)
    (store : List RevealedCapsule) (capsuleId : String) (recoveryKit : RecoveryKit)
    (userAddress : String) (originalUnlockTime : Nat)
    (revealMessage : Option String) (nowMs : Nat) :
    RevealResult × List RevealedCapsule :=
  if (validateRecoveryKit recoveryKit).isValid = false then
    (⟨false, none, some ("Invalid recovery kit: " ++
        (validateRecoveryKit recoveryKit).error.getD "")⟩,
      store)
  else if recoveryKit.capsuleId ≠ capsuleId ∧ isAllDigits capsuleId = false then
    (⟨false, none, some "Recovery kit does not match the specified capsule"⟩,
      store)
  else if (getRevealedCapsule store capsuleId).isSome then
    (⟨false, none, some "This capsule has already been revealed"⟩, store)
  else
    match ipfsHashOf capsuleId with
    | none =>
      (⟨false, none, some "Could not find IPFS content for this capsule"⟩, store)
    | some ipfsCid =>
      if charsStartWith "mock_".toList ipfsCid.toList then
        let mockDecryptedContent : DecryptedCapsuleContent :=
          ⟨"Test Time Capsule",
            "This is a test capsule for early reveal functionality",
            userAddress, nowMs⟩
        let revealedCapsule : RevealedCapsule :=
          ⟨capsuleId, mockDecryptedContent,
            ⟨nowMs, userAddress, decide (nowMs < originalUnlockTime * 1000),
              originalUnlockTime, some (revealMessage.getD ""), 0⟩⟩
        (⟨true, some revealedCapsule, none⟩,
          storeRevealedCapsule store revealedCapsule)
      else
        match download ipfsCid with
        | .error e =>
          (⟨false, none, some ("Failed to download content from IPFS: " ++ e)⟩,
            store)
        | .ok encryptedContent =>
          match decryptContent encryptedContent recoveryKit with
          | .error e => (⟨false, none, some e⟩, store)
          | .ok decryptedData =>
            if isUserAuthorized decryptedData userAddress = false then
              (⟨false, none, some "You are not authorized to reveal this capsule"⟩,
                store)
            else
              let revealedCapsule : RevealedCapsule :=
                ⟨capsuleId, decryptedData,
                  ⟨nowMs, userAddress, decide (nowMs < originalUnlockTime * 1000),
                    originalUnlockTime, revealMessage, 0⟩⟩
              (⟨true, some revealedCapsule, none⟩,
                storeRevealedCapsule store revealedCapsule)

end RevealService

namespace IPFSService

open RevealService (charsStartWith)

/-- `pinataGateway`. -/
def pinataGateway : String := "https://gateway.pinata.cloud"

/-- `pinataApiUrl`. -/
def pinataApiUrl : String := "https://api.pinata.cloud"

/-- Strategy 1: the three CORS proxy URLs (the model concatenates the target
URL directly; `encodeURIComponent` only re-spells it). -/
def corsProxies (cid : String) : List String :=
  [ "https://api.allorigins.win/get?url=" ++ pinataGateway ++ "/ipfs/" ++ cid,
    "https://cors-anywhere.herokuapp.com/" ++ pinataGateway ++ "/ipfs/" ++ cid,
    "https://corsproxy.io/?" ++ pinataGateway ++ "/ipfs/" ++ cid ]

/-- Strategy 3: the CORS-optimized public gateways, in ranked order. -/
def corsOptimizedGateways (cid : String) : List String :=
  [ pinataGateway ++ "/ipfs/" ++ cid,
    "https://cloudflare-ipfs.com/ipfs/" ++ cid,
    "https://dweb.link/ipfs/" ++ cid,
    "https://" ++ cid ++ ".ipfs.dweb.link" ]

/-- Strategy 4: the same primary gateway URL retried under the `no-cors` and
`same-origin` request modes. -/
def alternativeMethodUrls (cid : String) : List String :=
  [ pinataGateway ++ "/ipfs/" ++ cid,
    pinataGateway ++ "/ipfs/" ++ cid ]

/-- First successful non-empty response along a list of attempted URLs. -/
def firstHit (fetchUrl : String → Option String) : List String → Option String
  | [] => none
  | u :: us =>
    match fetchUrl u with
    | some content => some content
    | none => firstHit fetchUrl us

/-- `trim` on the character list (leading and trailing whitespace removed). -/
def trimChars (l : List Char) : List Char :=
  ((l.dropWhile Char.isWhitespace).reverse.dropWhile Char.isWhitespace).reverse

/-- `IPFSService.download`.  `fetchUrl` is the network oracle (a successful
fetch of a URL yields its body), `localStore` the `localStorage` oracle,
`pinataJWT` the configured credential.  A `local_`-prefixed CID is answered
from the local store alone; otherwise the four network strategies run in the
source's order and the final failure carries the diagnostic message. -/
def download (fetchUrl : String → Option String)
    (localStore : String → Option String) (pinataJWT : String) (cid : String) :
    Except String String :=
  if (trimChars cid.toList).isEmpty then
    .error "Invalid CID: CID cannot be empty"
  else if charsStartWith "local_".toList cid.toList then
    match localStore ("ipfs_" ++ cid) with
    | none => .error ("Content not found in localStorage for CID: " ++ cid)
    | some stored => .ok stored
  else
    match firstHit fetchUrl (corsProxies cid) with
    | some content => .ok content
    | none =>
      let viaPinata :=
        if pinataJWT ≠ "" then
          match fetchUrl (pinataApiUrl ++ "/data/pinList?status=pinned&hashContains="
              ++ cid ++ "&pageLimit=1") with
          | some _ => fetchUrl (pinataGateway ++ "/ipfs/" ++ cid)
          | none => none
        else none
      match viaPinata with
      | some content => .ok content
      | none =>
        match firstHit fetchUrl (corsOptimizedGateways cid) with
        | some content => .ok content
        | none =>
          match firstHit fetchUrl (alternativeMethodUrls cid) with
          | some content => .ok content
          | none =>
            .error ("IPFS download failed after trying multiple strategies: CID: "
              ++ cid)

end IPFSService

/-! ## Fixtures used by witness and counterexample instantiations -/

/-- An operation's success flag (`Except.ok` reached, i.e. no revert/throw). -/
def okResult {ε α : Type _} : Except ε α → Bool
  | .ok _ => true
  | .error _ => false

/-- A concrete stand-in hash function instantiating the abstract `keccak`
parameter in witnesses. -/
def testHash : List Nat → Nat :=
  fun l => l.foldl (fun a b => a * 257 + (b + 1)) 7

/-- A concrete locked capsule owned by address `5`, unlockable at time 200. -/
def wCapsule : TimeCapsule.CapsuleMeta :=
  { owner := 5, createdAt := 100, unlockTime := 200,
    capsuleType := .ENCRYPTED, status := .LOCKED,
    contentHash := testHash [1, 2, 3], contentRef := "QmSeed",
    recipients := [], isPublic := false }

/-- A contract state holding `wCapsule` as capsule 1. -/
def wState : TimeCapsule.ContractState :=
  { capsuleCounter := 1,
    capsules := fun i => if i = 1 then wCapsule else TimeCapsule.emptyCapsule,
    userCapsules := fun _ => [], protocolFee := 10, treasury := 9 }

/-- `wCapsule` after a successful reveal. -/
def wRevCapsule : TimeCapsule.CapsuleMeta :=
  { wCapsule with status := .REVEALED }

/-- A contract state whose capsule 1 is already revealed. -/
def wRevState : TimeCapsule.ContractState :=
  { wState with
      capsules := fun i => if i = 1 then wRevCapsule else TimeCapsule.emptyCapsule }

/-- A base64 rendering of a 32-byte key (43 alphabet characters plus one pad). -/
def wKeyB64 : String := String.mk (List.replicate 43 'A') ++ "="

/-- A base64 rendering of a 12-byte IV (16 alphabet characters). -/
def wIvB64 : String := String.mk (List.replicate 16 'A')

/-- A structurally valid recovery kit for capsule `"7"`. -/
def wKit : CryptoService.RecoveryKit := ⟨wKeyB64, wIvB64, "7"⟩

/-- A recovery kit with undersized key and IV and a non-sentinel capsule id. -/
def wBadKit : CryptoService.RecoveryKit := ⟨"AA==", "AA==", "cap1"⟩

/-- A structurally valid recovery kit with a non-sentinel capsule id. -/
def wGoodKit : CryptoService.RecoveryKit := ⟨wKeyB64, wIvB64, "cap1"⟩

/-- A recovery kit with undersized key and IV whose all-digits capsule id is
the test/mock sentinel. -/
def wSentinelKit : CryptoService.RecoveryKit := ⟨"AA==", "AA==", "123"⟩

/-- A concrete decrypted bundle declaring creator `0xabc`. -/
def wContent : RevealService.DecryptedCapsuleContent :=
  ⟨"Title", "Desc", "0xabc", 5⟩

/-- A revealed-capsule record for capsule `"7"` in the public index. -/
def wRecord : RevealService.RevealedCapsule :=
  ⟨"7", wContent, ⟨900, "0xabc", false, 200, none, 0⟩⟩

/-- A public index already holding the record for capsule `"7"`. -/
def wStore : List RevealService.RevealedCapsule := [wRecord]

/-- The fields of a capsule record that are fixed at creation. -/
def immutableFieldsEq (a b : TimeCapsule.CapsuleMeta) : Prop :=
  a.owner = b.owner ∧ a.createdAt = b.createdAt ∧ a.unlockTime = b.unlockTime ∧
  a.capsuleType = b.capsuleType ∧ a.recipients = b.recipients ∧
  a.isPublic = b.isPublic ∧ a.contentHash = b.contentHash

/-- The capsule record created by the concrete `createCapsule` call used in
witnesses. -/
def wNewCapsule : TimeCapsule.CapsuleMeta :=
  { owner := 5, createdAt := 1000, unlockTime := 87401,
    capsuleType := .ENCRYPTED, status := .LOCKED, contentHash := 7,
    contentRef := "QmNew", recipients := [], isPublic := false }

/-- `wState` after creating `wNewCapsule` as capsule 2. -/
def wCreatedState : TimeCapsule.ContractState :=
  { wState with
      capsuleCounter := 2,
      capsules := fun i => if i = 2 then wNewCapsule else wState.capsules i,
      userCapsules := fun a =>
        if a = 5 then wState.userCapsules a ++ [2] else wState.userCapsules a }

/-- `wState` after unlocking capsule 1. -/
def wUnlockedState : TimeCapsule.ContractState :=
  { wState with
      capsules := fun i =>
        if i = 1 then { wCapsule with status := .UNLOCKED }
        else wState.capsules i }

/-- `wState` after revealing capsule 1 with final reference `QmFinal`. -/
def wRevealedState : TimeCapsule.ContractState :=
  { wState with
      capsules := fun i =>
        if i = 1 then { wCapsule with status := .REVEALED, contentRef := "QmFinal" }
        else wState.capsules i }

/-- `wState` with the protocol fee updated by the treasury. -/
def wFeeState : TimeCapsule.ContractState :=
  { wState with protocolFee := 77 }

/-! ## Claim theorems -/

open TimeCapsule CryptoService RevealService IPFSService

/-- **C1** For every existing capsule and byte string `m`, with the capsule
unlocked, the caller authorized, and the capsule not yet revealed,
`revealCapsule` succeeds iff `keccak256 m` equals the stored `contentHash`,
and any differing hash is rejected with `HashMismatch`. -/
theorem reveal_hash_binding (keccak : List Nat → Nat) (s : ContractState)
    (sender now capsuleId : Nat) (m : List Nat) (ref : String)
    (hvalid : validCapsule s capsuleId = true)
    (htime : (s.capsules capsuleId).unlockTime ≤ now)
    (hauth : canAccessCapsule keccak s now capsuleId sender = true)
    (hnotrev : (s.capsules capsuleId).status ≠ .REVEALED) :
    (okResult (TimeCapsule.revealCapsule keccak s sender now capsuleId m ref) = true ↔
      keccak m = (s.capsules capsuleId).contentHash) ∧
    (keccak m ≠ (s.capsules capsuleId).contentHash →
      TimeCapsule.revealCapsule keccak s sender now capsuleId m ref =
        .error .HashMismatch) := by
  have hnlt : ¬ now < (s.capsules capsuleId).unlockTime := by omega
  unfold TimeCapsule.revealCapsule
  by_cases hk : keccak m = (s.capsules capsuleId).contentHash
  · simp [hvalid, hnlt, hauth, hnotrev, hk, okResult]
  · simp [hvalid, hnlt, hauth, hnotrev, hk, okResult]

theorem reveal_hash_binding_witness :
    (okResult (TimeCapsule.revealCapsule testHash wState 5 300 1 [1, 2, 3] "QmFinal") = true ↔
      testHash [1, 2, 3] = (wState.capsules 1).contentHash) ∧
    (testHash [1, 2, 3] ≠ (wState.capsules 1).contentHash →
      TimeCapsule.revealCapsule testHash wState 5 300 1 [1, 2, 3] "QmFinal" =
        .error .HashMismatch) :=
  reveal_hash_binding testHash wState 5 300 1 [1, 2, 3] "QmFinal"
    (by decide) (by decide) (by decide) (by decide)

/-- **C2** For every existing capsule, `unlockCapsule` and `revealCapsule`
both fail with `CapsuleStillLocked` strictly before `unlockTime`, and — given a
matching credential, an authorized caller, and a not-yet-revealed capsule —
both succeed from `unlockTime` on. -/
theorem timing_monotonicity (keccak : List Nat → Nat) (s : ContractState)
    (sender now capsuleId : Nat) (m : List Nat) (ref : String)
    (hvalid : validCapsule s capsuleId = true)
    (hauth : canAccessCapsule keccak s now capsuleId sender = true)
    (hnotrev : (s.capsules capsuleId).status ≠ .REVEALED)
    (hhash : keccak m = (s.capsules capsuleId).contentHash) :
    (now < (s.capsules capsuleId).unlockTime →
      unlockCapsule keccak s sender now capsuleId = .error .CapsuleStillLocked ∧
      TimeCapsule.revealCapsule keccak s sender now capsuleId m ref =
        .error .CapsuleStillLocked) ∧
    ((s.capsules capsuleId).unlockTime ≤ now →
      okResult (unlockCapsule keccak s sender now capsuleId) = true ∧
      okResult (TimeCapsule.revealCapsule keccak s sender now capsuleId m ref) = true) := by
  constructor
  · intro hlt
    unfold unlockCapsule TimeCapsule.revealCapsule
    simp [hvalid, hlt]
  · intro hge
    have hnlt : ¬ now < (s.capsules capsuleId).unlockTime := by omega
    constructor
    · unfold unlockCapsule
      by_cases hl : (s.capsules capsuleId).status = .LOCKED <;>
        simp [hvalid, hnlt, hauth, hl, okResult]
    · unfold TimeCapsule.revealCapsule
      simp [hvalid, hnlt, hauth, hnotrev, hhash, okResult]

theorem timing_monotonicity_witness :
    (300 < (wState.capsules 1).unlockTime →
      unlockCapsule testHash wState 5 300 1 = .error .CapsuleStillLocked ∧
      TimeCapsule.revealCapsule testHash wState 5 300 1 [1, 2, 3] "" =
        .error .CapsuleStillLocked) ∧
    ((wState.capsules 1).unlockTime ≤ 300 →
      okResult (unlockCapsule testHash wState 5 300 1) = true ∧
      okResult (TimeCapsule.revealCapsule testHash wState 5 300 1 [1, 2, 3] "") = true) :=
  timing_monotonicity testHash wState 5 300 1 [1, 2, 3] ""
    (by decide) (by decide) (by decide) (by decide)

/-- **C3, counterexample** The claim's closed interval is wrong at its lower
endpoint: with a sufficient fee and `unlockTime = createdAt + MIN_LOCK_DURATION`
— inside the claimed interval — `createCapsule` reverts with
`InvalidUnlockTime` (the source check is `unlockTime <= currentTime +
MIN_LOCK_DURATION`, a strict rejection of the endpoint). -/
theorem create_lower_bound_cex :
    wState.protocolFee ≤ 50 ∧
    (1000 + MIN_LOCK_DURATION ≤ 87400 ∧ 87400 ≤ 1000 + MAX_LOCK_DURATION) ∧
    createCapsule wState 5 50 1000 .ENCRYPTED 7 "" 87400 [] false =
      .error .InvalidUnlockTime :=
  ⟨by decide, by decide, rfl⟩

/-- **C3, amended** With a sufficient fee, `createCapsule` succeeds exactly
when `unlockTime` lies in the half-open interval
`(createdAt + MIN_LOCK_DURATION, createdAt + MAX_LOCK_DURATION]`; every
`unlockTime` outside it is rejected with `InvalidUnlockTime` (and, the call
returning an error, no capsule record is created). -/
theorem create_unlock_window (s : ContractState) (sender msgValue now : Nat)
    (capsuleType : CapsuleType) (contentHash : Nat) (contentRef : String)
    (unlockTime : Nat) (recipients : List String) (isPublic : Bool)
    (hfee : s.protocolFee ≤ msgValue) :
    (okResult (createCapsule s sender msgValue now capsuleType contentHash
        contentRef unlockTime recipients isPublic) = true ↔
      (now + MIN_LOCK_DURATION < unlockTime ∧
        unlockTime ≤ now + MAX_LOCK_DURATION)) ∧
    ((unlockTime ≤ now + MIN_LOCK_DURATION ∨
        now + MAX_LOCK_DURATION < unlockTime) →
      createCapsule s sender msgValue now capsuleType contentHash
        contentRef unlockTime recipients isPublic = .error .InvalidUnlockTime) := by
  have hnfee : ¬ msgValue < s.protocolFee := by omega
  unfold createCapsule
  by_cases hlo : unlockTime ≤ now + MIN_LOCK_DURATION
  · simp [hlo, okResult]
  · by_cases hhi : now + MAX_LOCK_DURATION < unlockTime
    · simp [hlo, hhi, okResult]
    · simp [hlo, hhi, hnfee, okResult]; omega

theorem create_unlock_window_witness :
    (okResult (createCapsule wState 5 50 1000 .ENCRYPTED 7 "" 87401 [] false) = true ↔
      (1000 + MIN_LOCK_DURATION < 87401 ∧ 87401 ≤ 1000 + MAX_LOCK_DURATION)) ∧
    ((87401 ≤ 1000 + MIN_LOCK_DURATION ∨ 1000 + MAX_LOCK_DURATION < 87401) →
      createCapsule wState 5 50 1000 .ENCRYPTED 7 "" 87401 [] false =
        .error .InvalidUnlockTime) :=
  create_unlock_window wState 5 50 1000 .ENCRYPTED 7 "" 87401 [] false (by decide)

/-- **C10** `revealCapsule` needs no prior `unlockCapsule`: an authorized,
hash-matching reveal of a capsule still `LOCKED` whose unlock time has passed
succeeds and moves it directly to `REVEALED`. -/
theorem reveal_direct_from_locked (keccak : List Nat → Nat) (s : ContractState)
    (sender now capsuleId : Nat) (m : List Nat) (ref : String)
    (hvalid : validCapsule s capsuleId = true)
    (hlocked : (s.capsules capsuleId).status = .LOCKED)
    (htime : (s.capsules capsuleId).unlockTime ≤ now)
    (hauth : canAccessCapsule keccak s now capsuleId sender = true)
    (hhash : keccak m = (s.capsules capsuleId).contentHash) :
    ∃ s', TimeCapsule.revealCapsule keccak s sender now capsuleId m ref = .ok s' ∧
      (s'.capsules capsuleId).status = .REVEALED := by
  have hnlt : ¬ now < (s.capsules capsuleId).unlockTime := by omega
  have hnotrev : ¬ (s.capsules capsuleId).status = .REVEALED := by
    rw [hlocked]; intro h; cases h
  unfold TimeCapsule.revealCapsule
  simp [hvalid, hnlt, hauth, hnotrev, hhash]

theorem reveal_direct_from_locked_witness :
    ∃ s', TimeCapsule.revealCapsule testHash wState 5 300 1 [1, 2, 3] "QmFinal" =
        .ok s' ∧ (s'.capsules 1).status = .REVEALED :=
  reveal_direct_from_locked testHash wState 5 300 1 [1, 2, 3] "QmFinal"
    (by decide) (by decide) (by decide) (by decide) (by decide)

/-- Every status rank is at most the rank of `REVEALED`. -/
theorem statusRank_le_two (st : CapsuleStatus) : statusRank st ≤ 2 := by
  cases st <;> simp [statusRank]

/-- **C4** The status of every capsule is monotone along
LOCKED → UNLOCKED → REVEALED under each operation (`createCapsule` touching no
capsule with an id at most the counter and minting the new one as `LOCKED`),
and `unlockCapsule` on an already-`UNLOCKED` capsule returns the state
unchanged rather than an error. -/
theorem status_monotone (keccak : List Nat → Nat) (s : ContractState)
    (sender msgValue now : Nat) (capsuleType : CapsuleType) (contentHash : Nat)
    (contentRef : String) (unlockTime : Nat) (recipients : List String)
    (isPublic : Bool) (m : List Nat) (ref : String) (capsuleId j : Nat) :
    (∀ s' newId, createCapsule s sender msgValue now capsuleType contentHash
        contentRef unlockTime recipients isPublic = .ok (s', newId) →
      ¬ j > s.capsuleCounter →
      statusRank (s.capsules j).status ≤ statusRank (s'.capsules j).status) ∧
    (∀ s', unlockCapsule keccak s sender now capsuleId = .ok s' →
      statusRank (s.capsules j).status ≤ statusRank (s'.capsules j).status) ∧
    (∀ s', TimeCapsule.revealCapsule keccak s sender now capsuleId m ref = .ok s' →
      statusRank (s.capsules j).status ≤ statusRank (s'.capsules j).status) ∧
    ((s.capsules capsuleId).status = .UNLOCKED →
      validCapsule s capsuleId = true →
      (s.capsules capsuleId).unlockTime ≤ now →
      canAccessCapsule keccak s now capsuleId sender = true →
      unlockCapsule keccak s sender now capsuleId = .ok s) := by
  refine ⟨?_, ?_, ?_, ?_⟩
  · intro s' newId h hj
    unfold createCapsule at h
    split at h
    · exact Except.noConfusion h
    · split at h
      · exact Except.noConfusion h
      · rw [Except.ok.injEq, Prod.mk.injEq] at h
        obtain ⟨rfl, rfl⟩ := h
        have hj' : ¬ j = s.capsuleCounter + 1 := by omega
        simp [hj']
  · intro s' h
    unfold unlockCapsule at h
    split at h
    · split at h
      · exact Except.noConfusion h
      · split at h
        · split at h
          · rw [Except.ok.injEq] at h
            subst h
            by_cases hj : j = capsuleId
            · subst hj
              rename_i hst
              simp [hst, statusRank]
            · simp [hj]
          · rw [Except.ok.injEq] at h
            subst h
            exact Nat.le_refl _
        · exact Except.noConfusion h
    · exact Except.noConfusion h
  · intro s' h
    unfold TimeCapsule.revealCapsule at h
    split at h
    · split at h
      · exact Except.noConfusion h
      · split at h
        · split at h
          · exact Except.noConfusion h
          · split at h
            · exact Except.noConfusion h
            · rw [Except.ok.injEq] at h
              subst h
              by_cases hj : j = capsuleId
              · subst hj
                simp only [if_pos rfl]
                exact statusRank_le_two _
              · simp [hj]
        · exact Except.noConfusion h
    · exact Except.noConfusion h
  · intro hst hvalid htime hauth
    have hnlt : ¬ now < (s.capsules capsuleId).unlockTime := by omega
    unfold unlockCapsule
    simp [hvalid, hnlt, hauth, hst]

theorem status_monotone_witness :
    statusRank ((wState.capsules 1).status) ≤ statusRank ((wCreatedState.capsules 1).status) ∧
    statusRank ((wState.capsules 1).status) ≤ statusRank ((wUnlockedState.capsules 1).status) ∧
    statusRank ((wState.capsules 1).status) ≤ statusRank ((wRevealedState.capsules 1).status) ∧
    unlockCapsule testHash wUnlockedState 5 1000 1 = .ok wUnlockedState := by
  have h := status_monotone testHash wState 5 50 1000 .ENCRYPTED 7 "QmNew"
    87401 [] false [1, 2, 3] "QmFinal" 1 1
  have h' := status_monotone testHash wUnlockedState 5 50 1000 .ENCRYPTED 7 "QmNew"
    87401 [] false [1, 2, 3] "QmFinal" 1 1
  exact ⟨h.1 wCreatedState 2 rfl (by decide), h.2.1 wUnlockedState rfl,
    h.2.2.1 wRevealedState rfl,
    h'.2.2.2 (by decide) (by decide) (by decide) (by decide)⟩

/-- **C9** After creation a capsule's `owner`, `createdAt`, `unlockTime`,
`capsuleType`, `recipients`, `isPublic` and `contentHash` never change:
`createCapsule` leaves every existing record untouched, `unlockCapsule`
changes only the status field, `revealCapsule` changes only the status field
plus — only for the revealed capsule and only when the supplied
`finalContentRef` is non-empty — the `contentRef` field (a replacement that
can happen at most once, since the reveal succeeds only on a capsule not yet
`REVEALED` and leaves it `REVEALED`), and the fee/treasury setters leave the
capsule store untouched. -/
theorem frame_conditions (keccak : List Nat → Nat) (s : ContractState)
    (sender msgValue now : Nat) (capsuleType : CapsuleType) (contentHash : Nat)
    (contentRef : String) (unlockTime : Nat) (recipients : List String)
    (isPublic : Bool) (m : List Nat) (ref : String)
    (capsuleId j newFee newTreasury : Nat) :
    (∀ s' newId, createCapsule s sender msgValue now capsuleType contentHash
        contentRef unlockTime recipients isPublic = .ok (s', newId) →
      ¬ j > s.capsuleCounter → s'.capsules j = s.capsules j) ∧
    (∀ s', unlockCapsule keccak s sender now capsuleId = .ok s' →
      immutableFieldsEq (s'.capsules j) (s.capsules j) ∧
      (s'.capsules j).contentRef = (s.capsules j).contentRef) ∧
    (∀ s', TimeCapsule.revealCapsule keccak s sender now capsuleId m ref = .ok s' →
      immutableFieldsEq (s'.capsules j) (s.capsules j) ∧
      (¬ (stringBytes ref).length > 0 ∨ ¬ j = capsuleId →
        (s'.capsules j).contentRef = (s.capsules j).contentRef) ∧
      (s.capsules capsuleId).status ≠ .REVEALED ∧
      (s'.capsules capsuleId).status = .REVEALED) ∧
    (∀ s', setProtocolFee s sender newFee = .ok s' → s'.capsules = s.capsules) ∧
    (∀ s', setTreasury s sender newTreasury = .ok s' → s'.capsules = s.capsules) := by
  refine ⟨?_, ?_, ?_, ?_, ?_⟩
  · intro s' newId h hj
    unfold createCapsule at h
    split at h
    · exact Except.noConfusion h
    · split at h
      · exact Except.noConfusion h
      · rw [Except.ok.injEq, Prod.mk.injEq] at h
        obtain ⟨rfl, rfl⟩ := h
        have hj' : ¬ j = s.capsuleCounter + 1 := by omega
        simp [hj']
  · intro s' h
    unfold unlockCapsule at h
    split at h
    · split at h
      · exact Except.noConfusion h
      · split at h
        · split at h
          · rw [Except.ok.injEq] at h
            subst h
            by_cases hj : j = capsuleId
            · subst hj
              simp [immutableFieldsEq]
            · simp [hj, immutableFieldsEq]
          · rw [Except.ok.injEq] at h
            subst h
            simp [immutableFieldsEq]
        · exact Except.noConfusion h
    · exact Except.noConfusion h
  · intro s' h
    unfold TimeCapsule.revealCapsule at h
    split at h
    · split at h
      · exact Except.noConfusion h
      · split at h
        · split at h
          · exact Except.noConfusion h
          · split at h
            · exact Except.noConfusion h
            · rw [Except.ok.injEq] at h
              subst h
              rename_i hnotrev hhash
              refine ⟨?_, ?_, hnotrev, by simp⟩
              · by_cases hj : j = capsuleId
                · subst hj
                  simp [immutableFieldsEq]
                · simp [hj, immutableFieldsEq]
              · intro hor
                by_cases hj : j = capsuleId
                · subst hj
                  rcases hor with hlen | hne
                  · simp [hlen]
                  · exact absurd rfl hne
                · simp [hj]
        · exact Except.noConfusion h
    · exact Except.noConfusion h
  · intro s' h
    unfold setProtocolFee at h
    split at h
    · rw [Except.ok.injEq] at h
      subst h
      rfl
    · exact Except.noConfusion h
  · intro s' h
    unfold setTreasury at h
    split at h
    · rw [Except.ok.injEq] at h
      subst h
      rfl
    · exact Except.noConfusion h

theorem frame_conditions_witness :
    wCreatedState.capsules 1 = wState.capsules 1 ∧
    immutableFieldsEq (wUnlockedState.capsules 1) (wState.capsules 1) ∧
    (wUnlockedState.capsules 1).contentRef = (wState.capsules 1).contentRef ∧
    immutableFieldsEq (wRevealedState.capsules 1) (wState.capsules 1) ∧
    (wRevealedState.capsules 2).contentRef = (wState.capsules 2).contentRef ∧
    (wState.capsules 1).status ≠ .REVEALED ∧
    (wRevealedState.capsules 1).status = .REVEALED ∧
    wFeeState.capsules = wState.capsules := by
  have hA := frame_conditions testHash wState 5 50 1000 .ENCRYPTED 7 "QmNew"
    87401 [] false [1, 2, 3] "QmFinal" 1 1 77 33
  have hB := frame_conditions testHash wState 5 50 1000 .ENCRYPTED 7 "QmNew"
    87401 [] false [1, 2, 3] "QmFinal" 1 2 77 33
  have hC := frame_conditions testHash wState 9 50 1000 .ENCRYPTED 7 "QmNew"
    87401 [] false [1, 2, 3] "QmFinal" 1 1 77 33
  exact ⟨hA.1 wCreatedState 2 rfl (by decide),
    (hA.2.1 wUnlockedState rfl).1, (hA.2.1 wUnlockedState rfl).2,
    (hA.2.2.1 wRevealedState rfl).1,
    (hB.2.2.1 wRevealedState rfl).2.1 (Or.inr (by decide)),
    (hA.2.2.1 wRevealedState rfl).2.2.1,
    (hA.2.2.1 wRevealedState rfl).2.2.2,
    hC.2.2.2.1 wFeeState rfl⟩

/-- Decoding the code points emitted by `textEncode` restores the string. -/
theorem textDecode_textEncode (s : String) : textDecode (textEncode s) = s := by
  simp only [textDecode, textEncode, List.map_map, Function.comp_def,
    Char.ofNat_toNat, List.map_id_fun', id]
  rfl

/-- **C6** Sealing a payload and opening it with the same key and nonce
returns the payload; opening with any other key/nonce pair fails closed with
the Web Crypto `OperationError`, never releasing plaintext. -/
theorem crypto_round_trip (p : String) (k n k' n' : List Nat)
    (_hsize : (textEncode p).length ≤ MAX_CONTENT_SIZE) :
    CryptoService.decrypt (CryptoService.encrypt p k n).encryptedContent k n =
      .ok p ∧
    ((k', n') ≠ (k, n) →
      CryptoService.decrypt (CryptoService.encrypt p k n).encryptedContent k' n' =
        .error "OperationError") := by
  constructor
  · simp [CryptoService.decrypt, CryptoService.encrypt, aeadDecrypt, aeadEncrypt,
      Except.map, textDecode_textEncode]
  · intro hne
    have hmix : ¬ (k = k' ∧ n = n') := by
      rintro ⟨rfl, rfl⟩
      exact hne rfl
    simp [CryptoService.decrypt, CryptoService.encrypt, aeadDecrypt, aeadEncrypt,
      Except.map, hmix]

theorem crypto_round_trip_witness :
    (textEncode "hello future").length ≤ MAX_CONTENT_SIZE ∧
    CryptoService.decrypt (CryptoService.encrypt "hello future" [1, 2] [3]).encryptedContent
      [1, 2] [3] = .ok "hello future" ∧
    CryptoService.decrypt (CryptoService.encrypt "hello future" [1, 2] [3]).encryptedContent
      [9] [3] = .error "OperationError" := by
  have h := crypto_round_trip "hello future" [1, 2] [3] [9] [3] (by decide)
  exact ⟨by decide, h.1, h.2 (by decide)⟩

/-- A list containing a non-whitespace character does not trim to empty. -/
theorem trimChars_not_empty {l : List Char} {c : Char} (hc : c ∈ l)
    (hw : c.isWhitespace = false) : (trimChars l).isEmpty = false := by
  have step : ∀ l' : List Char, c ∈ l' → c ∈ l'.dropWhile Char.isWhitespace := by
    intro l' hc'
    have hsplit := List.takeWhile_append_dropWhile (p := Char.isWhitespace) (l := l')
    rcases List.mem_append.mp (hsplit ▸ hc') with h1 | h2
    · have := List.mem_takeWhile_imp h1
      rw [hw] at this
      cases this
    · exact h2
  have h1 : c ∈ (l.dropWhile Char.isWhitespace).reverse :=
    List.mem_reverse.mpr (step l hc)
  have h2 : c ∈ trimChars l := by
    unfold trimChars
    exact List.mem_reverse.mpr (step _ h1)
  cases hres : (trimChars l).isEmpty
  · rfl
  · rw [List.isEmpty_iff] at hres
    rw [hres] at h2
    cases h2

/-- **C8** A content address carrying the reserved `local_` label resolves
purely from the local cache — the stored content when present, a not-found
failure when absent — and the result is independent of the network oracle, so
no endpoint of the fallback chain is ever consulted. -/
theorem local_cid_resolves_locally (fetchUrl fetchUrl' : String → Option String)
    (localStore : String → Option String) (pinataJWT : String) (cid : String)
    (hlocal : charsStartWith "local_".toList cid.toList = true) :
    (IPFSService.download fetchUrl localStore pinataJWT cid =
      match localStore ("ipfs_" ++ cid) with
      | none => .error ("Content not found in localStorage for CID: " ++ cid)
      | some stored => .ok stored) ∧
    IPFSService.download fetchUrl localStore pinataJWT cid =
      IPFSService.download fetchUrl' localStore pinataJWT cid := by
  have hne : (trimChars cid.toList).isEmpty = false := by
    cases hcl : cid.toList with
    | nil => rw [hcl] at hlocal; simp [charsStartWith] at hlocal
    | cons c cs =>
      rw [hcl] at hlocal
      simp only [charsStartWith, Bool.and_eq_true, beq_iff_eq] at hlocal
      refine trimChars_not_empty (l := c :: cs) (c := c) (List.mem_cons_self c cs) ?_
      rw [← hlocal.1]
      decide
  have key : ∀ f : String → Option String,
      IPFSService.download f localStore pinataJWT cid =
        match localStore ("ipfs_" ++ cid) with
        | none => .error ("Content not found in localStorage for CID: " ++ cid)
        | some stored => .ok stored := by
    intro f
    unfold IPFSService.download
    rw [if_neg (fun hcond => Bool.noConfusion (hcond ▸ hne)), if_pos hlocal]
  exact ⟨key fetchUrl, (key fetchUrl).trans (key fetchUrl').symm⟩

theorem local_cid_resolves_locally_witness :
    IPFSService.download (fun _ => none)
      (fun k => if k = "ipfs_local_42_abc" then some "payload" else none)
      "" "local_42_abc" = .ok "payload" ∧
    IPFSService.download (fun _ => none)
      (fun k => if k = "ipfs_local_42_abc" then some "payload" else none)
      "" "local_42_abc" =
    IPFSService.download (fun _ => some "network-body")
      (fun k => if k = "ipfs_local_42_abc" then some "payload" else none)
      "" "local_42_abc" := by
  have h := local_cid_resolves_locally (fun _ => none) (fun _ => some "network-body")
    (fun k => if k = "ipfs_local_42_abc" then some "payload" else none)
    "" "local_42_abc" (by decide)
  exact ⟨h.1, h.2⟩

/-- The reveal pipeline either leaves the public index unchanged or writes
through `storeRevealedCapsule` with a record carrying the revealed capsule's
id. -/
theorem revealCapsule_store_shape (ipfsHashOf : String → Option String)
    (download : String → Except String String)
    (decryptContent : String → RecoveryKit → Except String DecryptedCapsuleContent)
    (store : List RevealedCapsule) (capsuleId : String)
    (recoveryKit : RecoveryKit) (userAddress : String) (originalUnlockTime : Nat)
    (revealMessage : Option String) (nowMs : Nat) :
    (RevealService.revealCapsule ipfsHashOf download decryptContent store capsuleId
        recoveryKit userAddress originalUnlockTime revealMessage nowMs).2 = store ∨
    ∃ X : RevealedCapsule, X.id = capsuleId ∧
      (RevealService.revealCapsule ipfsHashOf download decryptContent store capsuleId
          recoveryKit userAddress originalUnlockTime revealMessage nowMs).2 =
        storeRevealedCapsule store X := by
  unfold RevealService.revealCapsule
  split
  · left; rfl
  · split
    · left; rfl
    · split
      · left; rfl
      · split
        · left; rfl
        · split
          · right; exact ⟨_, rfl, rfl⟩
          · split
            · left; rfl
            · split
              · left; rfl
              · split
                · left; rfl
                · right; exact ⟨_, rfl, rfl⟩

/-- After `storeRevealedCapsule` exactly one record with the stored id is in
the index. -/
theorem countP_storeRevealedCapsule (store : List RevealedCapsule)
    (X : RevealedCapsule) (capsuleId : String) (hX : X.id = capsuleId) :
    (storeRevealedCapsule store X).countP (fun c => c.id == capsuleId) = 1 := by
  subst hX
  unfold storeRevealedCapsule
  rw [List.countP_append, List.countP_filter]
  simp [List.countP_cons]

/-- **C5** Once a `RevealedCapsule` for an id is in the public index, every
later client reveal of that id is rejected with the index unchanged (and with
the already-revealed message whenever the kit itself is acceptable), a reveal
never pushes the per-id record count beyond one, and the ledger rejects the
re-reveal of a `REVEALED` capsule with `CapsuleAlreadyRevealed`. -/
theorem reveal_finality (ipfsHashOf : String → Option String)
    (download : String → Except String String)
    (decryptContent : String → RecoveryKit → Except String DecryptedCapsuleContent)
    (store : List RevealedCapsule) (capsuleId : String)
    (recoveryKit : RecoveryKit) (userAddress : String) (originalUnlockTime : Nat)
    (revealMessage : Option String) (nowMs : Nat)
    (keccak : List Nat → Nat) (s : ContractState) (sender now cid : Nat)
    (m : List Nat) (ref : String) :
    ((getRevealedCapsule store capsuleId).isSome = true →
      (RevealService.revealCapsule ipfsHashOf download decryptContent store
          capsuleId recoveryKit userAddress originalUnlockTime revealMessage
          nowMs).1.success = false ∧
      (RevealService.revealCapsule ipfsHashOf download decryptContent store
          capsuleId recoveryKit userAddress originalUnlockTime revealMessage
          nowMs).2 = store ∧
      ((validateRecoveryKit recoveryKit).isValid = true →
        (recoveryKit.capsuleId = capsuleId ∨ isAllDigits capsuleId = true) →
        (RevealService.revealCapsule ipfsHashOf download decryptContent store
            capsuleId recoveryKit userAddress originalUnlockTime revealMessage
            nowMs).1.error = some "This capsule has already been revealed")) ∧
    (store.countP (fun c => c.id == capsuleId) ≤ 1 →
      ((RevealService.revealCapsule ipfsHashOf download decryptContent store
          capsuleId recoveryKit userAddress originalUnlockTime revealMessage
          nowMs).2.countP (fun c => c.id == capsuleId)) ≤ 1) ∧
    (validCapsule s cid = true →
      (s.capsules cid).unlockTime ≤ now →
      canAccessCapsule keccak s now cid sender = true →
      (s.capsules cid).status = .REVEALED →
      TimeCapsule.revealCapsule keccak s sender now cid m ref =
        .error .CapsuleAlreadyRevealed) := by
  refine ⟨?_, ?_, ?_⟩
  · intro hdup
    by_cases h1 : (validateRecoveryKit recoveryKit).isValid = false
    · unfold RevealService.revealCapsule
      rw [if_pos h1]
      refine ⟨rfl, rfl, ?_⟩
      intro hv _
      rw [hv] at h1
      exact Bool.noConfusion h1
    · by_cases h2 : recoveryKit.capsuleId ≠ capsuleId ∧ isAllDigits capsuleId = false
      · unfold RevealService.revealCapsule
        rw [if_neg h1, if_pos h2]
        refine ⟨rfl, rfl, ?_⟩
        intro _ hor
        rcases hor with he | hd
        · exact absurd he h2.1
        · rw [hd] at h2
          exact Bool.noConfusion h2.2
      · unfold RevealService.revealCapsule
        rw [if_neg h1, if_neg h2, if_pos hdup]
        exact ⟨rfl, rfl, fun _ _ => rfl⟩
  · intro hcount
    rcases revealCapsule_store_shape ipfsHashOf download decryptContent store
      capsuleId recoveryKit userAddress originalUnlockTime revealMessage nowMs with
      h | ⟨X, hX, h⟩
    · rw [h]; exact hcount
    · rw [h, countP_storeRevealedCapsule store X capsuleId hX]
  · intro hv ht ha hrev
    have hnlt : ¬ now < (s.capsules cid).unlockTime := by omega
    unfold TimeCapsule.revealCapsule
    rw [if_pos hv, if_neg hnlt, if_pos ha, if_pos hrev]

theorem reveal_finality_witness :
    (RevealService.revealCapsule (fun _ => some "QmCid") (fun _ => .ok "blob")
        (fun _ _ => .ok wContent) wStore "7" wKit "0xabc" 200 none
        999).1.success = false ∧
    (RevealService.revealCapsule (fun _ => some "QmCid") (fun _ => .ok "blob")
        (fun _ _ => .ok wContent) wStore "7" wKit "0xabc" 200 none 999).2 =
      wStore ∧
    (RevealService.revealCapsule (fun _ => some "QmCid") (fun _ => .ok "blob")
        (fun _ _ => .ok wContent) wStore "7" wKit "0xabc" 200 none
        999).1.error = some "This capsule has already been revealed" ∧
    ((RevealService.revealCapsule (fun _ => some "QmCid") (fun _ => .ok "blob")
        (fun _ _ => .ok wContent) wStore "7" wKit "0xabc" 200 none
        999).2.countP (fun c => c.id == "7")) ≤ 1 ∧
    TimeCapsule.revealCapsule testHash wRevState 5 300 1 [1, 2, 3] "" =
      .error .CapsuleAlreadyRevealed := by
  have h := reveal_finality (fun _ => some "QmCid") (fun _ => .ok "blob")
    (fun _ _ => .ok wContent) wStore "7" wKit "0xabc" 200 none 999
    testHash wRevState 5 300 1 [1, 2, 3] ""
  exact ⟨(h.1 (by decide)).1, (h.1 (by decide)).2.1,
    (h.1 (by decide)).2.2 (by decide) (Or.inl (by decide)),
    h.2.1 (by decide),
    h.2.2 (by decide) (by decide) (by decide) (by decide)⟩

/-- **C7, counterexample** A credential whose `capsuleId` is the numeric
test/mock sentinel skips the byte-length validation entirely: `wSentinelKit`'s
key decodes to a single byte, yet `validateRecoveryKit` reports it valid and
the reveal pipeline proceeds to a decryption attempt (the decryption oracle's
failure is what surfaces), contradicting the claim that a key not decoding to
exactly 32 bytes always yields a validation failure instead of a decryption
attempt. -/
theorem credential_validation_cex :
    validateRecoveryKit wSentinelKit = ⟨true, none⟩ ∧
    (base64ToArrayBuffer wSentinelKit.key).map List.length = some 1 ∧
    (RevealService.revealCapsule (fun _ => some "QmCid") (fun _ => .ok "blob")
        (fun _ _ => .error "Decryption failed: wrong key") [] "123" wSentinelKit
        "0xabc" 200 none 999).1.error = some "Decryption failed: wrong key" :=
  ⟨by decide, by decide, by decide⟩

/-- **C7, amended** At entry to the reveal pipeline every credential passes
`validateRecoveryKit` before any decryption is attempted.  For a credential
whose own `capsuleId` is not the all-digits test/mock sentinel, validity
forces the key to decode to exactly 32 bytes and the IV to exactly 12; a
credential whose `capsuleId` is the sentinel bypasses the byte-length
validation entirely (not just the id match).  An invalid credential, or a
valid one whose id differs from a non-sentinel capsule id, produces a failure
result that leaves the index unchanged and is independent of the download and
decryption oracles — no decryption is attempted. -/
theorem credential_validation (kit : RecoveryKit)
    (ipfsHashOf : String → Option String)
    (download1 download2 : String → Except String String)
    (decrypt1 decrypt2 : String → RecoveryKit → Except String DecryptedCapsuleContent)
    (store : List RevealedCapsule) (capsuleId userAddress : String)
    (originalUnlockTime : Nat) (revealMessage : Option String) (nowMs : Nat) :
    ((validateRecoveryKit kit).isValid = true →
      isAllDigits kit.capsuleId = false →
      (∃ kb, base64ToArrayBuffer kit.key = some kb ∧ kb.length = 32) ∧
      (∃ ib, base64ToArrayBuffer kit.iv = some ib ∧ ib.length = 12)) ∧
    (kit.key ≠ "" → kit.iv ≠ "" → isAllDigits kit.capsuleId = true →
      validateRecoveryKit kit = ⟨true, none⟩) ∧
    ((validateRecoveryKit kit).isValid = false →
      (RevealService.revealCapsule ipfsHashOf download1 decrypt1 store capsuleId
          kit userAddress originalUnlockTime revealMessage nowMs).1.success = false ∧
      (RevealService.revealCapsule ipfsHashOf download1 decrypt1 store capsuleId
          kit userAddress originalUnlockTime revealMessage nowMs).2 = store ∧
      RevealService.revealCapsule ipfsHashOf download1 decrypt1 store capsuleId
          kit userAddress originalUnlockTime revealMessage nowMs =
        RevealService.revealCapsule ipfsHashOf download2 decrypt2 store capsuleId
          kit userAddress originalUnlockTime revealMessage nowMs) ∧
    ((validateRecoveryKit kit).isValid = true → kit.capsuleId ≠ capsuleId →
      isAllDigits capsuleId = false →
      (RevealService.revealCapsule ipfsHashOf download1 decrypt1 store capsuleId
          kit userAddress originalUnlockTime revealMessage nowMs).1 =
        ⟨false, none, some "Recovery kit does not match the specified capsule"⟩ ∧
      (RevealService.revealCapsule ipfsHashOf download1 decrypt1 store capsuleId
          kit userAddress originalUnlockTime revealMessage nowMs).2 = store ∧
      RevealService.revealCapsule ipfsHashOf download1 decrypt1 store capsuleId
          kit userAddress originalUnlockTime revealMessage nowMs =
        RevealService.revealCapsule ipfsHashOf download2 decrypt2 store capsuleId
          kit userAddress originalUnlockTime revealMessage nowMs) := by
  refine ⟨?_, ?_, ?_, ?_⟩
  · intro hv hnd
    unfold validateRecoveryKit at hv
    split at hv
    · simp at hv
    · split at hv
      · simp at hv
      · split at hv
        · simp at hv
        · split at hv
          · rename_i hdig
            rw [hnd] at hdig
            exact Bool.noConfusion hdig
          · split at hv
            · simp at hv
            · split at hv
              · simp at hv
              · split at hv
                · simp at hv
                · split at hv
                  · split at hv
                    · simp at hv
                    · split at hv
                      · simp at hv
                      · rename_i keyBuffer ivBuffer heqk heqi h32 h12
                        exact ⟨⟨keyBuffer, heqk, by omega⟩,
                          ⟨ivBuffer, heqi, by omega⟩⟩
                  · simp at hv
  · intro hk hiv hd
    unfold validateRecoveryKit
    rw [if_neg hk, if_neg hiv,
      if_neg (fun hc => by rw [hc] at hd; exact Bool.noConfusion hd),
      if_pos hd]
  · intro hv
    unfold RevealService.revealCapsule
    rw [if_pos hv, if_pos hv]
    exact ⟨rfl, rfl, rfl⟩
  · intro hv hne hnd
    have h1 : ¬ (validateRecoveryKit kit).isValid = false := by
      rw [hv]
      exact fun h => Bool.noConfusion h
    have h2 : kit.capsuleId ≠ capsuleId ∧ isAllDigits capsuleId = false :=
      ⟨hne, hnd⟩
    unfold RevealService.revealCapsule
    rw [if_neg h1, if_pos h2, if_neg h1, if_pos h2]
    exact ⟨rfl, rfl, rfl⟩

theorem credential_validation_witness :
    ((∃ kb, base64ToArrayBuffer wGoodKit.key = some kb ∧ kb.length = 32) ∧
      (∃ ib, base64ToArrayBuffer wGoodKit.iv = some ib ∧ ib.length = 12)) ∧
    validateRecoveryKit wSentinelKit = ⟨true, none⟩ ∧
    ((RevealService.revealCapsule (fun _ => some "QmCid") (fun _ => .ok "blob")
        (fun _ _ => .ok wContent) [] "cap9" wBadKit "0xabc" 200 none
        999).1.success = false ∧
      (RevealService.revealCapsule (fun _ => some "QmCid") (fun _ => .ok "blob")
        (fun _ _ => .ok wContent) [] "cap9" wBadKit "0xabc" 200 none 999).2 = [] ∧
      RevealService.revealCapsule (fun _ => some "QmCid") (fun _ => .ok "blob")
        (fun _ _ => .ok wContent) [] "cap9" wBadKit "0xabc" 200 none 999 =
        RevealService.revealCapsule (fun _ => some "QmCid")
          (fun _ => .error "down") (fun _ _ => .error "dec") [] "cap9" wBadKit
          "0xabc" 200 none 999) ∧
    ((RevealService.revealCapsule (fun _ => some "QmCid") (fun _ => .ok "blob")
        (fun _ _ => .ok wContent) [] "capX" wGoodKit "0xabc" 200 none 999).1 =
        ⟨false, none, some "Recovery kit does not match the specified capsule"⟩ ∧
      (RevealService.revealCapsule (fun _ => some "QmCid") (fun _ => .ok "blob")
        (fun _ _ => .ok wContent) [] "capX" wGoodKit "0xabc" 200 none 999).2 = [] ∧
      RevealService.revealCapsule (fun _ => some "QmCid") (fun _ => .ok "blob")
        (fun _ _ => .ok wContent) [] "capX" wGoodKit "0xabc" 200 none 999 =
        RevealService.revealCapsule (fun _ => some "QmCid")
          (fun _ => .error "down") (fun _ _ => .error "dec") [] "capX" wGoodKit
          "0xabc" 200 none 999) := by
  have hG := credential_validation wGoodKit (fun _ => some "QmCid")
    (fun _ => .ok "blob") (fun _ => .error "down") (fun _ _ => .ok wContent)
    (fun _ _ => .error "dec") [] "capX" "0xabc" 200 none 999
  have hS := credential_validation wSentinelKit (fun _ => some "QmCid")
    (fun _ => .ok "blob") (fun _ => .error "down") (fun _ _ => .ok wContent)
    (fun _ _ => .error "dec") [] "123" "0xabc" 200 none 999
  have hB := credential_validation wBadKit (fun _ => some "QmCid")
    (fun _ => .ok "blob") (fun _ => .error "down") (fun _ _ => .ok wContent)
    (fun _ _ => .error "dec") [] "cap9" "0xabc" 200 none 999
  exact ⟨hG.1 (by decide) (by decide),
    hS.2.1 (by decide) (by decide) (by decide),
    hB.2.2.1 (by decide),
    hG.2.2.2 (by decide) (by decide) (by decide)⟩
